import Mathlib

/-!
Verification of the document-ingestion pipeline, the structured extractor and
the multi-agent generation pipeline of `juridisch-advies-streamlit.py`.

The Python source is shallowly embedded. Pure string manipulation becomes
Lean functions on `String` and `List Char`. Calls into the external
generative service, and other effectful library calls that may raise, are
passed in as explicit parameters returning `Except String _`, where
`.error e` stands for a raised Python exception with message `e`. Python
functions that catch all exceptions and return a value become total Lean
functions matching on that `Except`. Values read from the clock
(`datetime.now()`) become explicit parameters.
-/

/- ## Python string primitives -/

/-- Model of the Python slice `s[:n]`: the first `n` characters of `s`
(all of `s` when it is shorter). -/
def pySlice (s : String) (n : Nat) : String :=
  String.mk (s.data.take n)

/-- Characters stripped by the Python `str.strip()` with no argument
(ASCII whitespace; the unicode cases do not occur in this code base). -/
def isPySpace (c : Char) : Bool :=
  c = ' ' || c = '\t' || c = '\n' || c = '\r' || c = '\x0b' || c = '\x0c'

/-- Model of the Python `str.strip()`: drop leading and trailing whitespace. -/
def pyStrip (s : String) : String :=
  String.mk (((s.data.dropWhile isPySpace).reverse.dropWhile isPySpace).reverse)

/-- Split a character list at every occurrence of `c`; always returns at
least one (possibly empty) piece, like the Python `str.split(sep)`. -/
def splitOnChar (c : Char) : List Char → List (List Char)
  | [] => [[]]
  | x :: xs =>
    match splitOnChar c xs with
    | [] => [[x]]
    | h :: t => if x = c then [] :: h :: t else (x :: h) :: t

/-- Model of the Python `s.split(sep)` for a one-character separator. -/
def pySplit (s : String) (c : Char) : List String :=
  (splitOnChar c s.data).map String.mk

/-- Model of the Python `str.lower()` (ASCII suffices for the file names
this code base handles). -/
def pyLower (s : String) : String :=
  String.mk (s.data.map Char.toLower)

/-- `t` occurs as a contiguous substring of `s`. -/
def containsStr (s t : String) : Prop :=
  ∃ u v : String, s = u ++ t ++ v

/-- `s` begins with the prefix `p`. -/
def strStartsWith (s p : String) : Prop :=
  ∃ t : String, s = p ++ t

/- ## A model of `json.loads`

The form-filling assistant in `get_casus_input` parses the model response
with the Python standard-library `json.loads`. We model the JSON core it
accepts in this code path: null, booleans, integer numerals, strings with
the single-character escapes, arrays and objects, with the usual
whitespace; `\u` escapes and fractional or exponent numerals are left out,
as they decide none of the claims. Parsing is fuel-indexed recursive
descent; the fuel supplied by `json_loads` always suffices. -/

inductive JsonVal where
  | null : JsonVal
  | bool : Bool → JsonVal
  | num : Int → JsonVal
  | str : String → JsonVal
  | arr : List JsonVal → JsonVal
  | obj : List (String × JsonVal) → JsonVal

/-- JSON insignificant whitespace. -/
def isJsonWs (c : Char) : Bool :=
  c = ' ' || c = '\t' || c = '\n' || c = '\r'

/-- Skip insignificant whitespace. -/
def skipJsonWs (cs : List Char) : List Char :=
  cs.dropWhile isJsonWs

/-- The character denoted by a single-character JSON string escape. -/
def escChar (c : Char) : Option Char :=
  if c = '"' then some '"'
  else if c = '\\' then some '\\'
  else if c = '/' then some '/'
  else if c = 'n' then some '\n'
  else if c = 't' then some '\t'
  else if c = 'r' then some '\r'
  else if c = 'b' then some '\x08'
  else if c = 'f' then some '\x0c'
  else none

/-- Read the body of a JSON string after its opening quote; returns the
decoded characters and the remaining input after the closing quote. -/
def parseStringChars : List Char → Option (List Char × List Char)
  | [] => none
  | c :: rest =>
    if c = '"' then some ([], rest)
    else if c = '\\' then
      match rest with
      | [] => none
      | e :: rest2 =>
        match escChar e with
        | none => none
        | some ec =>
          match parseStringChars rest2 with
          | none => none
          | some (s, r) => some (ec :: s, r)
    else
      match parseStringChars rest with
      | none => none
      | some (s, r) => some (c :: s, r)

/-- Value of a list of decimal digits. -/
def digitsToNat (ds : List Char) : Nat :=
  ds.foldl (fun n c => 10 * n + (c.toNat - 48)) 0

/-- Read an integer JSON numeral. -/
def parseJsonNumber (cs : List Char) : Option (JsonVal × List Char) :=
  match cs with
  | '-' :: rest =>
    let ds := rest.takeWhile Char.isDigit
    if ds.isEmpty then none
    else some (JsonVal.num (-(Int.ofNat (digitsToNat ds))), rest.dropWhile Char.isDigit)
  | _ =>
    let ds := cs.takeWhile Char.isDigit
    if ds.isEmpty then none
    else some (JsonVal.num (Int.ofNat (digitsToNat ds)), cs.dropWhile Char.isDigit)

mutual

/-- Read one JSON value. -/
def parseJsonValue : Nat → List Char → Option (JsonVal × List Char)
  | 0, _ => none
  | Nat.succ fuel, cs =>
    match skipJsonWs cs with
    | [] => none
    | c :: rest =>
      if c = 'n' then
        match rest with
        | 'u' :: 'l' :: 'l' :: r => some (JsonVal.null, r)
        | _ => none
      else if c = 't' then
        match rest with
        | 'r' :: 'u' :: 'e' :: r => some (JsonVal.bool true, r)
        | _ => none
      else if c = 'f' then
        match rest with
        | 'a' :: 'l' :: 's' :: 'e' :: r => some (JsonVal.bool false, r)
        | _ => none
      else if c = '"' then
        match parseStringChars rest with
        | some (sc, r) => some (JsonVal.str (String.mk sc), r)
        | none => none
      else if c = '[' then
        match skipJsonWs rest with
        | ']' :: r => some (JsonVal.arr [], r)
        | other =>
          match parseJsonElements fuel other with
          | some (vs, r) => some (JsonVal.arr vs, r)
          | none => none
      else if c = '\x7b' then
        match skipJsonWs rest with
        | '\x7d' :: r => some (JsonVal.obj [], r)
        | other =>
          match parseJsonMembers fuel other with
          | some (ms, r) => some (JsonVal.obj ms, r)
          | none => none
      else parseJsonNumber (c :: rest)

/-- Read the elements of a nonempty JSON array up to and including `]`. -/
def parseJsonElements : Nat → List Char → Option (List JsonVal × List Char)
  | 0, _ => none
  | Nat.succ fuel, cs =>
    match parseJsonValue fuel cs with
    | none => none
    | some (v, r) =>
      match skipJsonWs r with
      | ',' :: r2 =>
        match parseJsonElements fuel r2 with
        | some (vs, r3) => some (v :: vs, r3)
        | none => none
      | ']' :: r2 => some ([v], r2)
      | _ => none

/-- Read the members of a nonempty JSON object up to and including the
closing brace. -/
def parseJsonMembers : Nat → List Char → Option (List (String × JsonVal) × List Char)
  | 0, _ => none
  | Nat.succ fuel, cs =>
    match skipJsonWs cs with
    | '"' :: r =>
      match parseStringChars r with
      | none => none
      | some (k, r2) =>
        match skipJsonWs r2 with
        | ':' :: r3 =>
          match parseJsonValue fuel r3 with
          | none => none
          | some (v, r4) =>
            match skipJsonWs r4 with
            | ',' :: r5 =>
              match parseJsonMembers fuel r5 with
              | some (ms, r6) => some ((String.mk k, v) :: ms, r6)
              | none => none
            | '\x7d' :: r5 => some ([(String.mk k, v)], r5)
            | _ => none
        | _ => none
    | _ => none

end

/-- Model of the Python `json.loads`: parse one complete JSON value,
allowing surrounding whitespace, refusing trailing text. -/
def json_loads (s : String) : Option JsonVal :=
  match parseJsonValue (2 * s.data.length + 2) s.data with
  | some (v, rest) => if (skipJsonWs rest).isEmpty then some v else none
  | none => none

/- ## The structured extractor (`get_casus_input`, source lines 840-855)

`re.search(r'\x7b.*\x7d', response.text, re.DOTALL)` matches from the
first opening brace to the last closing brace after it, or not at all.
On a match the span is fed to `json.loads`; only on success is
`st.session_state.ai_extracted_data` assigned, and the later
`st.session_state.get('ai_extracted_data', \x7b\x7d)` yields the parsed
mapping or the empty mapping. -/

/-- The span the regex `\x7b.*\x7d` with `re.DOTALL` matches in `s`, if any:
from the first opening brace through the last closing brace after it. -/
def braceSpan (s : String) : Option String :=
  let fromBrace := s.data.dropWhile (fun c => c != '\x7b')
  if fromBrace.isEmpty then none
  else
    let upToClose := (fromBrace.reverse.dropWhile (fun c => c != '\x7d')).reverse
    if upToClose.isEmpty then none
    else some (String.mk upToClose)

/-- The field mapping `ai_data` available after the AI form-filling step ran
on the generative response text `response_text` (empty session beforehand):
the parsed object on success, the empty mapping on a missing span or any
parse failure — never an exception that aborts the run. -/
def ai_extract (response_text : String) : List (String × JsonVal) :=
  match braceSpan response_text with
  | none => []
  | some span =>
    match json_loads span with
    | some (JsonVal.obj kvs) => kvs
    | _ => []

/- ## Data classes and the generative-call helper -/

/-- `CasusInput` (source lines 254-265): the case record all agents consume. -/
structure CasusInput where
  client_naam : String
  client_rol : String
  tegenpartij_naam : String
  tegenpartij_rol : String
  situatie_samenvatting : String
  doel_client : String
  vorderingen : List String
  feitenrelaas : String
  bewijsstukken : List String

/-- The relevant parts of a `google.generativeai` response: the `parts`
list and the `text` accessor. -/
structure GenResponse where
  parts : List String
  text : String

/-- `LITE_MODEL` (source line 247). -/
def LITE_MODEL : String := "gemini-2.0-flash-lite"

/-- `ADVANCED_MODEL` (source line 248). -/
def ADVANCED_MODEL : String := "gemini-2.0-flash-lite"

/-- The combined prompt `call_gemini` sends (source lines 300-302). -/
def mkFullPrompt (system_prompt user_prompt : String) : String :=
  "System: " ++ system_prompt ++ "\n\nUser: " ++ user_prompt

/-- `call_gemini` (source lines 279-312). `rawGen model_name full_prompt`
models `model.generate_content(full_prompt)` on the named model: `.error e`
is a raised exception, `.ok` the response object. -/
def call_gemini (rawGen : String → String → Except String GenResponse)
    (system_prompt user_prompt : String) (model_name : String) : String :=
  match rawGen model_name (mkFullPrompt system_prompt user_prompt) with
  | Except.error e => "ERROR: " ++ e
  | Except.ok response =>
    if response.parts.isEmpty then "ERROR: Geen response ontvangen"
    else response.text

/- ## Agent prompts (transcribed from the source f-strings) -/

/-- System prompt of Agent 1 (source lines 324-326). -/
def agent1_system_prompt : String :=
  "Je bent een ervaren Belgische advocaat die de sterkst mogelijke casus voor de cliënt opbouwt. \nJe structureert je analyse volgens 5 pijlers: Narratief, Juridische Interpretatie, Toerekening aan Tegenpartij, \nAanval op Vordering, en Bewijskracht. Je bent grondig maar beknopt."

/-- User prompt of Agent 1 (source lines 331-368). -/
def agent1_user_prompt (casus : CasusInput) : String :=
  "Analyseer deze casus en bouw het sterkste pleidooi voor onze cliënt:\n\nCLIËNT: "
  ++ casus.client_naam ++ " (" ++ casus.client_rol ++ ")\nTEGENPARTIJ: "
  ++ casus.tegenpartij_naam ++ " (" ++ casus.tegenpartij_rol ++ ")\n\nSITUATIE: "
  ++ casus.situatie_samenvatting ++ "\n\nDOEL CLIËNT: " ++ casus.doel_client
  ++ "\n\nVORDERINGEN TEGENPARTIJ: " ++ String.intercalate ", " casus.vorderingen
  ++ "\n\nFEITEN: " ++ casus.feitenrelaas
  ++ "\n\nBEWIJSSTUKKEN: " ++ String.intercalate ", " casus.bewijsstukken
  ++ "\n\nStructureer je analyse volgens deze 5 pijlers:\n\n1. NARRATIEF & FACTUAL FRAMING\n- Presenteer het feitenrelaas vanuit het perspectief van de cliënt\n- Contextualiseer ongunstige feiten\n\n2. GUNSTIGE JURIDISCHE INTERPRETATIE\n- Selecteer relevante wetsartikelen en rechtspraak\n- Interpreteer deze maximaal gunstig voor de cliënt\n\n3. TOEREKENING AAN TEGENPARTIJ\n- Identificeer fouten/nalatigheden van de tegenpartij\n- Analyseer hun eigen verantwoordelijkheid\n\n4. AANVAL OP DE VORDERING\n- Betwist systematisch: fout, schade, causaal verband\n- Argumenteer waarom vorderingen ongegrond zijn\n\n5. BEWIJSKRACHTIGE ARGUMENTATIE\n- Verwijs naar ondersteunende bewijsstukken\n- Wijs op bewijslacunes bij tegenpartij\n\nWees concreet en verwijs naar Belgisch recht."

/-- System prompt of Agent 2 (source lines 378-379). -/
def agent2_system_prompt : String :=
  "Je bent de beste advocaat van de tegenpartij. Je identificeert genadeloos alle zwaktes \nin de positie van onze cliënt en alle risico\x27s. Je denkt als een tegenstander die wil winnen."

/-- User prompt of Agent 2 (source lines 384-420); embeds the first 1000
characters of the Agent 1 output. -/
def agent2_user_prompt (casus : CasusInput) (agent1_output : String) : String :=
  "Analyseer deze casus TEGEN onze cliënt. Je hebt ook de analyse van Agent 1 gezien:\n\nCASUS INFO:\nCliënt: "
  ++ casus.client_naam ++ " (" ++ casus.client_rol ++ ")\nTegenpartij: "
  ++ casus.tegenpartij_naam ++ " (" ++ casus.tegenpartij_rol ++ ")\nSituatie: "
  ++ casus.situatie_samenvatting ++ "\nVorderingen: "
  ++ String.intercalate ", " casus.vorderingen
  ++ "\n\nAGENT 1 ANALYSE (pro-cliënt):\n"
  ++ pySlice agent1_output 1000
  ++ "...\n\nStructureer je tegenanalyse volgens deze 5 pijlers:\n\n1. STERKST MOGELIJKE TEGENARGUMENT\n- Formuleer het meest overtuigende argument voor de tegenpartij\n- Gebruik de gunstigste interpretatie van feiten en recht voor hen\n\n2. IDENTIFICATIE VAN ONZE ZWAKTES\n- Welke feiten zijn objectief ongunstig?\n- Welke acties zijn moeilijk te verdedigen?\n- Welke juridische argumenten zijn wankel?\n\n3. ANALYSE VAN BEWIJSRISICO\x27S\n- Welk bewijs missen we?\n- Welke bewijsstukken van tegenpartij zijn schadelijk?\n- Kunnen we aan de bewijslast voldoen?\n\n4. WORST-CASE SCENARIO\n- Maximale financiële blootstelling?\n- Niet-financiële risico\x27s?\n- Precedentwerking?\n\n5. ANTICIPATIE OP ONS VERWEER\n- Hoe zal tegenpartij onze argumenten weerleggen?\n- Welke tegenargumenten zijn het sterkst?\n\nWees meedogenloos kritisch."

/-- System prompt of Agent 3 (source lines 430-431). -/
def agent3_system_prompt : String :=
  "Je bent een expert in Belgisch procesrecht. Je focust uitsluitend op procedurele, \nformele en contractuele argumenten die de vordering kunnen doen falen zonder inhoudelijke behandeling."

/-- User prompt of Agent 3 (source lines 436-471); built from the case
record alone, no other stage output appears in it. -/
def agent3_user_prompt (casus : CasusInput) : String :=
  "Analyseer procedurele knock-out mogelijkheden voor deze casus:\n\nPARTIJEN: "
  ++ casus.client_naam ++ " vs " ++ casus.tegenpartij_naam ++ "\nVORDERINGEN: "
  ++ String.intercalate ", " casus.vorderingen ++ "\nFEITEN: "
  ++ casus.feitenrelaas ++ "\nBEWIJSSTUKKEN: "
  ++ String.intercalate ", " casus.bewijsstukken
  ++ "\n\nAnalyseer systematisch:\n\n1. VERJARING & VERVALTERMIJNEN\n- Identificeer toepasselijke termijnen (wettelijk/contractueel)\n- Bepaal startdata (gunstig vs conservatief)\n- Analyseer stuiting/schorsing\n\n2. KLACHTPLICHT & MELDINGSTERMIJNEN\n- Is er een klachtplicht?\n- Tijdig geklaagd?\n- Correcte wijze en inhoud?\n\n3. CONTRACTUELE ANALYSE\n- Exoneratiebedingen\n- Garantieclausules\n- Boetebedingen\n- Forum-/rechtskeuzebedingen\n- Finale kwijting\n- Pre-processuele vereisten\n\n4. FORMELE VEREISTEN\n- Ingebrekestelling correct?\n- Alle voorwaarden vervuld?\n\n5. BEVOEGDHEID & ONTVANKELIJKHEID\n- Materiële/territoriale bevoegdheid\n- Belang en hoedanigheid\n\nVoor elk punt: geef potentie aan (HOOG/GEMIDDELD/LAAG) met juridische basis."

/-- System prompt of Agent 4 (source lines 481-483). -/
def agent4_system_prompt : String :=
  "Je bent de senior partner die alle analyses integreert tot een coherent strategisch advies. \nJe weegt de pro\x27s (Agent 1), contra\x27s (Agent 2) en procedurele aspecten (Agent 3) om tot een \nevenwichtige kansinschatting en optimale strategie te komen."

/-- User prompt of Agent 4 (source lines 488-519); embeds the first 1500
characters of each of the three prior outputs. -/
def agent4_user_prompt (casus : CasusInput) (agent1 agent2 agent3 : String) : String :=
  "Integreer de analyses van alle agenten tot een coherente strategie:\n\nCASUS: "
  ++ casus.client_naam ++ " vs " ++ casus.tegenpartij_naam ++ "\nDOEL: "
  ++ casus.doel_client
  ++ "\n\nAGENT 1 (Pro-cliënt):\n"
  ++ pySlice agent1 1500
  ++ "...\n\nAGENT 2 (Risico\x27s):\n"
  ++ pySlice agent2 1500
  ++ "...\n\nAGENT 3 (Procedureel):\n"
  ++ pySlice agent3 1500
  ++ "...\n\nSYNTHESISEER:\n\n1. WEGING VAN ARGUMENTEN\n- Welke argumenten van Agent 1 zijn het sterkst?\n- Welke risico\x27s van Agent 2 zijn reëel?\n- Welke procedurele punten van Agent 3 zijn kansrijk?\n\n2. KANSINSCHATTING\n- Geef een percentage of kwalitatieve inschatting\n- Motiveer deze inschatting\n- Identificeer het hoofdrisico\n\n3. STRATEGISCHE AANBEVELING\n- Formuleer de optimale strategie\n- Prioriteer de stappen\n- Geef concrete acties\n\nWees evenwichtig en realistisch in je beoordeling."

/- ## Agent wrappers -/

/-- `Agent1_AnalytischeJurist.analyze` (source lines 328-370). -/
def agent1_analyze (rawGen : String → String → Except String GenResponse)
    (casus : CasusInput) : String :=
  call_gemini rawGen agent1_system_prompt (agent1_user_prompt casus) LITE_MODEL

/-- `Agent2_AdvocaatDuivel.analyze` (source lines 381-422). -/
def agent2_analyze (rawGen : String → String → Except String GenResponse)
    (casus : CasusInput) (agent1_output : String) : String :=
  call_gemini rawGen agent2_system_prompt (agent2_user_prompt casus agent1_output) LITE_MODEL

/-- `Agent3_ProcedureleStrateeg.analyze` (source lines 433-473). -/
def agent3_analyze (rawGen : String → String → Except String GenResponse)
    (casus : CasusInput) : String :=
  call_gemini rawGen agent3_system_prompt (agent3_user_prompt casus) LITE_MODEL

/-- `Agent4_Synthesizer.synthesize` (source lines 485-521). -/
def agent4_synthesize (rawGen : String → String → Except String GenResponse)
    (casus : CasusInput) (agent1 agent2 agent3 : String) : String :=
  call_gemini rawGen agent4_system_prompt (agent4_user_prompt casus agent1 agent2 agent3) ADVANCED_MODEL

/- ## The advice composer (`AdviesGenerator`, source lines 527-628) -/

/-- The Python `dict.get(key, default)` with default the empty string, on a
dictionary modelled as an association list in insertion order. -/
def dictGet (d : List (String × String)) (k : String) : String :=
  match d.find? (fun kv => kv.1 == k) with
  | some kv => kv.2
  | none => ""

/-- System prompt of the advice generator (source lines 538-541). -/
def advies_system_prompt : String :=
  "Je bent een senior juridisch adviseur die een professionele adviesnota opstelt voor een Belgische juridische context.\nJe moet EXACT de gegeven template volgen, inclusief alle asterisken (*) voor bullet points en formatting.\nIntegreer de analyses van alle agents in de juiste secties volgens de template instructies.\nWees uitgebreid en concreet in je uitwerking."

/-- User prompt of the advice generator (source lines 543-626); embeds the
first 1500 characters of each of the four stage outputs, 80 characters of
the situation summary, and the current date `datum`. -/
def advies_user_prompt (casus : CasusInput) (all_analyses : List (String × String))
    (datum : String) : String :=
  "Genereer een juridisch advies EXACT volgens deze template. Gebruik de analyses van de agents om de template in te vullen:\n\nCASUS INFO:\n- Cliënt: "
  ++ casus.client_naam ++ " (" ++ casus.client_rol ++ ")\n- Tegenpartij: "
  ++ casus.tegenpartij_naam ++ " (" ++ casus.tegenpartij_rol ++ ")\n- Situatie: "
  ++ casus.situatie_samenvatting ++ "\n- Doel: " ++ casus.doel_client
  ++ "\n- Vorderingen: " ++ String.intercalate ", " casus.vorderingen
  ++ "\n\nAGENT ANALYSES (gebruik deze info om de template in te vullen):\nAgent 1 (Pro-cliënt argumenten): "
  ++ pySlice (dictGet all_analyses "sterke_punten") 1500
  ++ "\nAgent 2 (Risico\x27s): "
  ++ pySlice (dictGet all_analyses "risicos") 1500
  ++ "\nAgent 3 (Procedurele kansen): "
  ++ pySlice (dictGet all_analyses "procedurele_kansen") 1500
  ++ "\nAgent 4 (Synthese): "
  ++ pySlice (dictGet all_analyses "synthese") 1500
  ++ "\n\nVEREISTE OUTPUT (volg EXACT deze template):\n\n**DEEL B: CONCEPT ADVIESNOTA / STRATEGISCH MEMO**\n" ++ String.mk (List.replicate 50 '=') ++ "\n\n**AAN:** Behandelend Advocaat\n**VAN:** AI Sparringpartner\n**DOSSIER:** "
  ++ casus.client_naam
  ++ "\n**DATUM:** " ++ datum
  ++ "\n**BETREFT:** Analyse rechtspositie en strategische opties inzake "
  ++ pySlice casus.situatie_samenvatting 80
  ++ "...\n\n### 1. KERN VAN DE ZAAK EN ADVIESVRAAG\n*   **Conflict:** [Zeer korte samenvatting van het geschil tussen "
  ++ casus.client_naam ++ " en " ++ casus.tegenpartij_naam
  ++ "]\n*   **Adviesvraag:** Wat is de juridische sterkte van onze positie en welke strategische stappen zijn aan te bevelen om het doel van de cliënt te bereiken?\n\n### 2. SAMENVATTING RELEVANTE FEITEN\n[Presenteer een beknopte, objectieve en chronologische samenvatting van de juridisch relevante feiten uit de casus]\n\n### 3. JURIDISCHE ANALYSE\n\n**3.1. Toepasselijk Kader**\n*   **Rechtsregels:** [Lijst relevante Belgische wetsartikelen zoals art. 1641 oud BW voor verborgen gebreken, art. 1382 oud BW voor aansprakelijkheid, etc.]\n*   **Relevante Jurisprudentie:** [Vermeld 1-2 relevante Cassatie-arresten met datum en nummer]\n\n**3.2. Analyse Sterktes en Zwaktes (Debat samengevat)**\n*   **Procedurele Kansen (Knock-outs):**\n    *   [Gebruik info van Agent 3 - formuleer belangrijkste procedurele verweren]\n*   **Inhoudelijke Argumenten pro Cliënt (Onze Case):**\n    *   [Gebruik info van Agent 1 - eerste sterke punt]\n    *   [Gebruik info van Agent 1 - tweede sterke punt]\n*   **Inhoudelijke Tegenargumenten & Risico\x27s (Case van de Tegenpartij):**\n    *   [Gebruik info van Agent 2 - sterkste tegenargument]\n    *   [Gebruik info van Agent 2 - belangrijkste risico]\n\n**3.3. Analyse Bewijspositie Tegenpartij (Gaten en Kansen)**\n*   **Bewijslast Tegenpartij:** De tegenpartij draagt de bewijslast voor [specificeer exact welke stellingen zij moeten bewijzen]\n*   **Geïdentificeerde Bewijsgaten:** Op basis van de nu beschikbare stukken, ontbreekt er bewijs voor de volgende cruciale stellingen van de tegenpartij:\n    *   Stelling 1: \"[Specifieke bewering]\". **Ontbrekend bewijs:** [Wat ontbreekt]\n    *   Stelling 2: \"[Andere bewering]\". **Ontbrekend bewijs:** [Wat ontbreekt]\n*   **Strategisch Informatieverzoek:** Het is aan te bevelen de tegenpartij te verzoeken de volgende stukken over te leggen:\n    1.  [Specifiek document dat hun stelling moet ondersteunen]\n    2.  [Ander relevant document]\n\n### 4. GEWOGEN CONCLUSIE EN KANSINSCHATTING\n*   **Synthese:** [Geef gewogen oordeel op basis van Agent 4 synthese, integreer procedurele en inhoudelijke aspecten]\n*   **Kansinschatting (indicatief):**\n    *   Succes in procedure: [Percentage of kwalitatieve inschatting met korte motivering]\n    *   Belangrijkste risico: [Identificeer het hoofdrisico voor onze positie]\n\n### 5. STRATEGISCHE OPTIES EN AANBEVELING\n**Optie 1: [Geef concrete naam, bv. \"Procedureel verweer op basis van klachtplicht\"] (Aanbevolen)**\n*   **Beschrijving:** [Beschrijf de strategie concreet]\n*   **Concrete Stappen:** \n    1.  [Eerste concrete stap]\n    2.  [Tweede concrete stap]\n    3.  [Derde concrete stap]\n*   **Voordelen:** [Lijst 2-3 voordelen]\n\n**Optie 2: [Andere strategie, bv. \"Inhoudelijk verweer met openheid voor minnelijke regeling\"]**\n*   **Beschrijving:** [Beschrijf deze alternatieve strategie]\n*   **Concrete Stappen:**\n    1.  [Eerste stap]\n    2.  [Tweede stap]\n*   **Voordelen:** [Lijst voordelen]\n\n**Aanbeveling:**\n[Motiveer waarom Optie 1 wordt aanbevolen, verwijs naar de sterktes uit de analyse]\n\nBELANGRIJK: Volg deze template EXACT, inclusief de bullet points met asterisken (*), de nummering, en de structuur."

/-- `AdviesGenerator.genereer_uitgebreid_advies` (source lines 533-628).
`timestamp` is the unused parameter of the source method; `datum` stands
for the `datetime.now().strftime("%d/%m/%Y")` read at call time. -/
def genereer_uitgebreid_advies (rawGen : String → String → Except String GenResponse)
    (casus : CasusInput) (all_analyses : List (String × String))
    (timestamp : String) (datum : String) : String :=
  call_gemini rawGen advies_system_prompt (advies_user_prompt casus all_analyses datum)
    ADVANCED_MODEL

/- ## The pipeline run (`run_analysis`, source lines 968-1067) -/

/-- The outputs a completed run stores in the session state. -/
structure PipelineResult where
  agent1 : String
  agent2 : String
  agent3 : String
  agent4 : String
  final_advice : String

/-- The dictionary `synthese_data` built in `run_analysis`
(source lines 1046-1051). -/
def synthese_data (agent1_output agent2_output agent3_output agent4_output : String) :
    List (String × String) :=
  [("synthese", agent4_output), ("procedurele_kansen", agent3_output),
   ("sterke_punten", agent1_output), ("risicos", agent2_output)]

/-- `run_analysis` (source lines 968-1067): the five generative calls in
their fixed order. `timestamp` and `datum` stand for the two
`datetime.now()` reads. -/
def run_analysis (rawGen : String → String → Except String GenResponse)
    (casus : CasusInput) (timestamp datum : String) : PipelineResult :=
  let agent1_output := agent1_analyze rawGen casus
  let agent2_output := agent2_analyze rawGen casus agent1_output
  let agent3_output := agent3_analyze rawGen casus
  let agent4_output := agent4_synthesize rawGen casus agent1_output agent2_output agent3_output
  let final_advice := genereer_uitgebreid_advies rawGen casus
    (synthese_data agent1_output agent2_output agent3_output agent4_output) timestamp datum
  { agent1 := agent1_output, agent2 := agent2_output, agent3 := agent3_output,
    agent4 := agent4_output, final_advice := final_advice }

/- ## The form submission (`get_casus_input`, source lines 938-966) -/

/-- The values present in the submitted form, together with the session
OCR text (empty when absent). -/
structure FormInput where
  client_naam : String
  client_rol : String
  tegenpartij_naam : String
  tegenpartij_rol : String
  situatie_samenvatting : String
  doel_client : String
  vorderingen_text : String
  feitenrelaas : String
  bewijsstukken_text : String
  include_ocr : Bool
  ocr_text : String

/-- The list comprehension `[v.strip() for v in text.split(chr 10) if v.strip()]`
(source lines 947-948). -/
def parse_lines (t : String) : List String :=
  ((pySplit t '\n').map pyStrip).filter (fun v => v != "")

/-- The sentinel substituted for an empty claims list (source line 961). -/
def GEEN_VORDERINGEN : String := "Geen vorderingen gespecificeerd"

/-- The sentinel substituted for an empty evidence list (source line 963). -/
def GEEN_BEWIJSSTUKKEN : String := "Geen bewijsstukken gespecificeerd"

/-- The submission path of `get_casus_input` (source lines 940-964):
validation, line parsing, optional OCR append, record construction.
Returns `none` when validation fails and no record is constructed. -/
def get_casus_input (inp : FormInput) : Option CasusInput :=
  if inp.client_naam = "" ∨ inp.tegenpartij_naam = "" ∨ inp.situatie_samenvatting = "" then
    none
  else
    let vorderingen := parse_lines inp.vorderingen_text
    let bewijsstukken := parse_lines inp.bewijsstukken_text
    let feitenrelaas :=
      if inp.include_ocr ∧ inp.ocr_text ≠ "" then
        inp.feitenrelaas ++ "\n\n=== GEËXTRAHEERDE DOCUMENTEN ===\n" ++ inp.ocr_text
      else inp.feitenrelaas
    some
      { client_naam := inp.client_naam
        client_rol := inp.client_rol
        tegenpartij_naam := inp.tegenpartij_naam
        tegenpartij_rol := inp.tegenpartij_rol
        situatie_samenvatting := inp.situatie_samenvatting
        doel_client := inp.doel_client
        vorderingen := if vorderingen = [] then [GEEN_VORDERINGEN] else vorderingen
        feitenrelaas := feitenrelaas
        bewijsstukken := if bewijsstukken = [] then [GEEN_BEWIJSSTUKKEN] else bewijsstukken }

/-- The flow of `main` (source lines 1161-1167): a pipeline run starts
exactly when `get_casus_input` produced a record. -/
def main_run (rawGen : String → String → Except String GenResponse)
    (inp : FormInput) (timestamp datum : String) : Option PipelineResult :=
  (get_casus_input inp).map (fun casus => run_analysis rawGen casus timestamp datum)

/- ## Document ingestion (source lines 31-210)

Uploaded files are opaque handles: `uid` stands for the file bytes. The
effectful library operations are the fields of `IngestEnv`: `readPdf` is
`fitz.open` plus page iteration, `renderPage` is `page.get_pixmap` at a
given scale matrix plus `Image.open`, `openImage` is `Image.open` on an
image upload, `extractImageRaw` is the `generate_content([prompt, image])`
call inside `extract_content_from_image` returning the response text, and
`directPdfRaw` the one inside `extract_content_from_pdf_direct`. An
`.error e` result stands for a raised exception. -/

/-- An uploaded file: its name and an opaque handle to its bytes. -/
structure UploadedFile where
  name : String
  uid : Nat

/-- The runtime environment of the ingestion functions, over abstract
types of PDF pages and raster images. -/
structure IngestEnv (Page Image : Type) where
  pdfSupport : Bool
  readPdf : UploadedFile → Except String (List Page)
  renderPage : Page → Nat × Nat → Image
  openImage : UploadedFile → Except String Image
  extractImageRaw : Image → Bool → Except String String
  directPdfRaw : UploadedFile → Bool → Except String String

/-- The fixed rasterization scale `fitz.Matrix(2.0, 2.0)` (source line 42). -/
def FITZ_MATRIX : Nat × Nat := (2, 2)

/-- `file.name.lower().split(chr 46)[-1]` (source line 106). -/
def file_extension (name : String) : String :=
  (pySplit (pyLower name) '.').getLastD ""

/-- `pdf_to_images` (source lines 31-52): with PyMuPDF, render every page
at the fixed 2x matrix and pair it with its 1-based page number; without
PyMuPDF return `none` (the Python `None`). -/
def pdf_to_images {Page Image : Type} (env : IngestEnv Page Image)
    (pdf_file : UploadedFile) : Except String (Option (List (Image × Nat))) :=
  if env.pdfSupport then
    (env.readPdf pdf_file).map (fun pages =>
      some (pages.enum.map (fun ip => (env.renderPage ip.2 FITZ_MATRIX, ip.1 + 1))))
  else Except.ok none

/-- `extract_content_from_image` (source lines 136-184): its internal
try/except turns any exception into an empty string after showing the
error in the UI; an empty response text yields the literal fallback text.
The `source_name` argument is accepted and unused, as in the source. -/
def extract_content_from_image {Image : Type}
    (extractImageRaw : Image → Bool → Except String String)
    (image : Image) (describe_images : Bool) (source_name : String) : String :=
  match extractImageRaw image describe_images with
  | Except.error _ => ""
  | Except.ok t => if t = "" then "Geen tekst of visuele elementen gevonden." else t

/-- `extract_content_from_pdf_direct` (source lines 54-101): the whole
document in one multimodal call; exceptions become an inline error text. -/
def extract_content_from_pdf_direct
    (directPdfRaw : UploadedFile → Bool → Except String String)
    (pdf_file : UploadedFile) (describe_images : Bool) : String :=
  match directPdfRaw pdf_file describe_images with
  | Except.error e => "PDF verwerking mislukt: " ++ e
  | Except.ok t => if t = "" then "Geen content gevonden in PDF." else t

/-- One iteration of the per-page loop in `extract_content_from_file`
(source lines 114-117): extract the page image, keep nonempty content
prefixed with its 1-based page number. -/
def page_entry {Page Image : Type} (env : IngestEnv Page Image)
    (describe_images : Bool) (im : Image × Nat) : Option String :=
  let content := extract_content_from_image env.extractImageRaw im.1 describe_images
    ("Pagina " ++ toString im.2)
  if content = "" then none
  else some ("\n--- Pagina " ++ toString im.2 ++ " ---\n" ++ content)

/-- The body of the `try` block of `extract_content_from_file`
(source lines 105-130); an `.error` is an exception reaching its
`except` clause. -/
def extract_file_body {Page Image : Type} (env : IngestEnv Page Image)
    (file : UploadedFile) (describe_images : Bool) : Except String String :=
  let ext := file_extension file.name
  if ext = "pdf" then
    if env.pdfSupport then
      (pdf_to_images env file).map (fun images =>
        match images with
        | none => extract_content_from_pdf_direct env.directPdfRaw file describe_images
        | some imgs =>
          if imgs.isEmpty then
            extract_content_from_pdf_direct env.directPdfRaw file describe_images
          else
            String.intercalate "\n" (imgs.filterMap (page_entry env describe_images)))
    else Except.ok (extract_content_from_pdf_direct env.directPdfRaw file describe_images)
  else if ["png", "jpg", "jpeg", "webp"].contains ext then
    (env.openImage file).map (fun image =>
      extract_content_from_image env.extractImageRaw image describe_images file.name)
  else Except.ok ("Bestandstype " ++ ext ++ " wordt niet ondersteund.")

/-- `extract_content_from_file` (source lines 103-134): the catch-all
`except` shows the error in the UI and returns the empty string. -/
def extract_content_from_file {Page Image : Type} (env : IngestEnv Page Image)
    (file : UploadedFile) (describe_images : Bool) : String :=
  match extract_file_body env file describe_images with
  | Except.ok s => s
  | Except.error _ => ""

/-- The 50-character separator line of the per-document wrapper
(source line 205). -/
def separator50 : String := String.mk (List.replicate 50 '=')

/-- The wrapped rendering of one document inside the merged blob
(source line 205). -/
def document_wrap {Page Image : Type} (env : IngestEnv Page Image)
    (describe_images : Bool) (file : UploadedFile) : String :=
  "\n" ++ separator50 ++ "\nDocument: " ++ file.name ++ "\n" ++ separator50 ++ "\n"
    ++ extract_content_from_file env file describe_images ++ "\n"

/-- One iteration of the loop in `process_multiple_documents`
(source lines 194-205): only nonempty extracted content is appended. -/
def document_entry {Page Image : Type} (env : IngestEnv Page Image)
    (describe_images : Bool) (file : UploadedFile) : Option String :=
  let extracted := extract_content_from_file env file describe_images
  if extracted = "" then none
  else some (document_wrap env describe_images file)

/-- `process_multiple_documents` (source lines 186-210): the merged
ingestion blob. -/
def process_multiple_documents {Page Image : Type} (env : IngestEnv Page Image)
    (uploaded_files : List UploadedFile) (describe_images : Bool) : String :=
  String.intercalate "\n" (uploaded_files.filterMap (document_entry env describe_images))

/- ## Concrete instances used by witnesses and counterexamples -/

/-- A small concrete case record. -/
def exCasus : CasusInput :=
  { client_naam := "NV TechStart", client_rol := "Opdrachtnemer",
    tegenpartij_naam := "NV GlobalCorp", tegenpartij_rol := "Opdrachtgever",
    situatie_samenvatting := "Geschil over een beëindigd IT-contract",
    doel_client := "Betaling van openstaande facturen",
    vorderingen := ["Terugbetaling voorschotten"],
    feitenrelaas := "Chronologie van de feiten",
    bewijsstukken := ["Ondertekend contract"] }

/-- A generative service whose every call raises. -/
def exRawGenErr : String → String → Except String GenResponse :=
  fun _ _ => Except.error "quota bereikt"

/-- A deterministic generative stub echoing the full prompt back. -/
def echoStub : String → String → Except String GenResponse :=
  fun _ full_prompt => Except.ok { parts := ["deel"], text := full_prompt }

/-- Four fixed stage outputs packed as `run_analysis` packs them. -/
def exAnalyses : List (String × String) :=
  synthese_data "analyse een" "analyse twee" "analyse drie" "analyse vier"

/-- Three image uploads. -/
def exFileA : UploadedFile := { name := "a.png", uid := 1 }

/-- Second image upload; its bytes turn out to be unreadable. -/
def exFileB : UploadedFile := { name := "b.png", uid := 2 }

/-- Third image upload. -/
def exFileC : UploadedFile := { name := "c.png", uid := 3 }

/-- An ingestion environment in which opening file 2 raises and the other
two images extract successfully. -/
def exEnvC1 : IngestEnv Nat Nat :=
  { pdfSupport := true,
    readPdf := fun _ => Except.error "corrupt",
    renderPage := fun p _ => p,
    openImage := fun f => if f.uid = 2 then Except.error "kapot bestand" else Except.ok f.uid,
    extractImageRaw := fun i _ =>
      if i = 1 then Except.ok "TEKST EEN"
      else if i = 3 then Except.ok "TEKST DRIE"
      else Except.error "leesfout",
    directPdfRaw := fun _ _ => Except.error "geen" }

/-- A PDF upload that will be processed through the direct fallback. -/
def exPdfDirectFile : UploadedFile := { name := "scan.pdf", uid := 9 }

/-- An ingestion environment without PyMuPDF whose direct whole-document
call raises. -/
def exEnvC1b : IngestEnv Nat Nat :=
  { pdfSupport := false,
    readPdf := fun _ => Except.error "geen rasterizer",
    renderPage := fun p _ => p,
    openImage := fun _ => Except.error "geen afbeelding",
    extractImageRaw := fun _ _ => Except.error "leesfout",
    directPdfRaw := fun _ _ => Except.error "netwerkfout" }

/-- An ingestion environment with PyMuPDF available; images record the page
and the scale matrix they were rendered with. -/
def exEnvC9 : IngestEnv Nat (Nat × Nat × Nat) :=
  { pdfSupport := true,
    readPdf := fun _ => Except.ok [10, 20],
    renderPage := fun p m => (p, m.1, m.2),
    openImage := fun _ => Except.error "geen afbeelding",
    extractImageRaw := fun i _ => Except.ok ("inhoud " ++ toString i.1),
    directPdfRaw := fun _ _ => Except.ok "directe inhoud" }

/-- The same environment without PyMuPDF. -/
def exEnvC9b : IngestEnv Nat (Nat × Nat × Nat) :=
  { exEnvC9 with pdfSupport := false }

/-- A two-page PDF upload. -/
def exPdfFile : UploadedFile := { name := "dossier.pdf", uid := 7 }

/-- A submitted form with empty claims and evidence text. -/
def exInpC6 : FormInput :=
  { client_naam := "A", client_rol := "koper", tegenpartij_naam := "B",
    tegenpartij_rol := "verkoper", situatie_samenvatting := "geschil",
    doel_client := "doel", vorderingen_text := "", feitenrelaas := "feiten",
    bewijsstukken_text := "", include_ocr := false, ocr_text := "" }

/-- The record `get_casus_input` constructs from `exInpC6`. -/
def exCasusC6 : CasusInput :=
  { client_naam := "A", client_rol := "koper", tegenpartij_naam := "B",
    tegenpartij_rol := "verkoper", situatie_samenvatting := "geschil",
    doel_client := "doel", vorderingen := [GEEN_VORDERINGEN],
    feitenrelaas := "feiten", bewijsstukken := [GEEN_BEWIJSSTUKKEN] }

/-- A submitted form with an empty client name. -/
def exInpC7bad : FormInput :=
  { client_naam := "", client_rol := "koper", tegenpartij_naam := "B",
    tegenpartij_rol := "verkoper", situatie_samenvatting := "geschil",
    doel_client := "doel", vorderingen_text := "v", feitenrelaas := "feiten",
    bewijsstukken_text := "b", include_ocr := false, ocr_text := "" }

/-- A submitted form whose claims text holds only whitespace. -/
def exInpC10 : FormInput :=
  { client_naam := "A", client_rol := "", tegenpartij_naam := "B",
    tegenpartij_rol := "", situatie_samenvatting := "geschil",
    doel_client := "", vorderingen_text := "   \n\t", feitenrelaas := "",
    bewijsstukken_text := "bewijs A", include_ocr := false, ocr_text := "" }

/-- The record `get_casus_input` constructs from `exInpC10`. -/
def exCasusC10 : CasusInput :=
  { client_naam := "A", client_rol := "", tegenpartij_naam := "B",
    tegenpartij_rol := "", situatie_samenvatting := "geschil",
    doel_client := "", vorderingen := [GEEN_VORDERINGEN],
    feitenrelaas := "", bewijsstukken := ["bewijs A"] }

/-- A submitted form whose claims text holds two padded lines. -/
def exInpC10w : FormInput :=
  { client_naam := "A", client_rol := "", tegenpartij_naam := "B",
    tegenpartij_rol := "", situatie_samenvatting := "geschil",
    doel_client := "", vorderingen_text := "  eis een  \neis twee",
    feitenrelaas := "", bewijsstukken_text := "stuk", include_ocr := false,
    ocr_text := "" }

/-- The record `get_casus_input` constructs from `exInpC10w`. -/
def exCasusC10w : CasusInput :=
  { client_naam := "A", client_rol := "", tegenpartij_naam := "B",
    tegenpartij_rol := "", situatie_samenvatting := "geschil",
    doel_client := "", vorderingen := ["eis een", "eis twee"],
    feitenrelaas := "", bewijsstukken := ["stuk"] }

/- ## Helper lemmas -/

theorem string_data_inj {a b : String} (h : a.data = b.data) : a = b := by
  cases a; cases b; exact congrArg String.mk h

theorem pySlice_pySlice (s : String) (n : Nat) :
    pySlice (pySlice s n) n = pySlice s n := by
  apply string_data_inj
  show (s.data.take n).take n = s.data.take n
  rw [List.take_take, Nat.min_self]

theorem pySlice_length_le (s : String) (n : Nat) : (pySlice s n).length ≤ n := by
  show (s.data.take n).length ≤ n
  rw [List.length_take]
  exact Nat.min_le_left n s.data.length

theorem pySlice_of_length_le (s : String) (n : Nat) (h : s.length ≤ n) :
    pySlice s n = s := by
  apply string_data_inj
  show s.data.take n = s.data
  exact List.take_of_length_le h

theorem string_append_empty (s : String) : s ++ "" = s := by
  apply string_data_inj
  rw [String.data_append]
  exact List.append_nil s.data

theorem containsStr_snoc (u t : String) : containsStr (u ++ t) t :=
  ⟨u, "", by rw [string_append_empty]⟩

theorem containsStr_peel (s v t : String) (h : containsStr s t) :
    containsStr (s ++ v) t := by
  obtain ⟨a, b, rfl⟩ := h
  exact ⟨a, b ++ v, by simp [String.append_assoc]⟩

theorem strStartsWith_error (e : String) : strStartsWith ("ERROR: " ++ e) "ERROR:" := by
  refine ⟨" " ++ e, ?_⟩
  rw [← String.append_assoc]
  have h : ("ERROR:" ++ " " : String) = "ERROR: " := rfl
  rw [h]

theorem dropWhile_head_false {α : Type} (p : α → Bool) :
    ∀ (l : List α) (x : α) (xs : List α), l.dropWhile p = x :: xs → p x = false := by
  intro l
  induction l with
  | nil => intro x xs h; simp [List.dropWhile] at h
  | cons a as ih =>
    intro x xs h
    rw [List.dropWhile_cons] at h
    by_cases hp : p a
    · exact ih x xs (by simpa [hp] using h)
    · simp only [hp, if_false] at h
      cases h
      simpa using hp

theorem dropWhile_idem {α : Type} (p : α → Bool) (l : List α) :
    (l.dropWhile p).dropWhile p = l.dropWhile p := by
  cases h : l.dropWhile p with
  | nil => simp
  | cons x xs =>
    have hx := dropWhile_head_false p l x xs h
    simp [List.dropWhile_cons, hx]

theorem rstrip_head_eq {α : Type} (p : α → Bool) (l : List α) (y : α) (ys : List α)
    (h : (l.reverse.dropWhile p).reverse = y :: ys) : ∃ zs, l = y :: zs := by
  have hsplit : l = (y :: ys) ++ (l.reverse.takeWhile p).reverse := by
    calc l = l.reverse.reverse := by simp
      _ = (l.reverse.takeWhile p ++ l.reverse.dropWhile p).reverse := by
            rw [List.takeWhile_append_dropWhile]
      _ = (l.reverse.dropWhile p).reverse ++ (l.reverse.takeWhile p).reverse := by
            rw [List.reverse_append]
      _ = (y :: ys) ++ (l.reverse.takeWhile p).reverse := by rw [h]
  exact ⟨ys ++ (l.reverse.takeWhile p).reverse, hsplit⟩

theorem pyStrip_idem (s : String) : pyStrip (pyStrip s) = pyStrip s := by
  apply string_data_inj
  show ((((((s.data.dropWhile isPySpace).reverse.dropWhile isPySpace).reverse).dropWhile
      isPySpace).reverse).dropWhile isPySpace).reverse
    = ((s.data.dropWhile isPySpace).reverse.dropWhile isPySpace).reverse
  have step1 : (((s.data.dropWhile isPySpace).reverse.dropWhile isPySpace).reverse).dropWhile
      isPySpace = ((s.data.dropWhile isPySpace).reverse.dropWhile isPySpace).reverse := by
    cases hr : ((s.data.dropWhile isPySpace).reverse.dropWhile isPySpace).reverse with
    | nil => simp
    | cons y ys =>
      obtain ⟨zs, hL⟩ := rstrip_head_eq isPySpace (s.data.dropWhile isPySpace) y ys hr
      have hw : isPySpace y = false :=
        dropWhile_head_false isPySpace s.data y zs hL
      simp [List.dropWhile_cons, hw]
  rw [step1]
  have step2 : (((s.data.dropWhile isPySpace).reverse.dropWhile isPySpace).reverse).reverse.dropWhile
      isPySpace = (((s.data.dropWhile isPySpace).reverse.dropWhile isPySpace).reverse).reverse := by
    rw [List.reverse_reverse]
    exact dropWhile_idem isPySpace (s.data.dropWhile isPySpace).reverse
  rw [step2, List.reverse_reverse]

theorem pyStrip_mem_parse {x : String} {l : List String}
    (h : x ∈ (l.map pyStrip).filter (fun v => v != "")) :
    x ≠ "" ∧ pyStrip x = x := by
  have hx : x ∈ l.map pyStrip := (List.mem_filter.mp h).1
  have hne : (x != "") = true := (List.mem_filter.mp h).2
  obtain ⟨a, _, ha⟩ := List.mem_map.mp hx
  refine ⟨by simpa using hne, ?_⟩
  rw [← ha, pyStrip_idem]

theorem string_append_left_cancel {a b c : String} (h : a ++ b = a ++ c) : b = c := by
  apply string_data_inj
  have hd := congrArg String.data h
  rw [String.data_append, String.data_append] at hd
  exact List.append_cancel_left hd

theorem string_append_right_cancel {a b c : String} (h : a ++ c = b ++ c) : a = b := by
  apply string_data_inj
  have hd := congrArg String.data h
  rw [String.data_append, String.data_append] at hd
  exact List.append_cancel_right hd

theorem dictGet_sterke_punten (a1 a2 a3 a4 : String) :
    dictGet (synthese_data a1 a2 a3 a4) "sterke_punten" = a1 := rfl

theorem dictGet_risicos (a1 a2 a3 a4 : String) :
    dictGet (synthese_data a1 a2 a3 a4) "risicos" = a2 := rfl

theorem dictGet_procedurele_kansen (a1 a2 a3 a4 : String) :
    dictGet (synthese_data a1 a2 a3 a4) "procedurele_kansen" = a3 := rfl

theorem dictGet_synthese (a1 a2 a3 a4 : String) :
    dictGet (synthese_data a1 a2 a3 a4) "synthese" = a4 := rfl

/- ## Claim theorems -/

/-- C2: the Stage-2 prompt embeds at most the first 1000 characters of the
Stage-1 output, and the Stage-4 prompt and the composer prompt each embed
at most the first 1500 characters of any single prior stage output; a
shorter output is embedded in full. Stated as: each prompt depends on a
prior output only through its truncation, the truncation never exceeds the
cap, and a short output occurs verbatim in the prompt. -/
theorem prompt_truncation_caps (c : CasusInput) (s1 s2 s3 a1 a2 a3 a4 datum : String) :
    (agent2_user_prompt c s1 = agent2_user_prompt c (pySlice s1 1000)
      ∧ (pySlice s1 1000).length ≤ 1000
      ∧ (s1.length ≤ 1000 → containsStr (agent2_user_prompt c s1) s1))
    ∧ (agent4_user_prompt c s1 s2 s3
        = agent4_user_prompt c (pySlice s1 1500) (pySlice s2 1500) (pySlice s3 1500)
      ∧ (pySlice s1 1500).length ≤ 1500
      ∧ (pySlice s2 1500).length ≤ 1500
      ∧ (pySlice s3 1500).length ≤ 1500
      ∧ (s1.length ≤ 1500 → containsStr (agent4_user_prompt c s1 s2 s3) s1)
      ∧ (s2.length ≤ 1500 → containsStr (agent4_user_prompt c s1 s2 s3) s2)
      ∧ (s3.length ≤ 1500 → containsStr (agent4_user_prompt c s1 s2 s3) s3))
    ∧ (advies_user_prompt c (synthese_data a1 a2 a3 a4) datum
        = advies_user_prompt c
            (synthese_data (pySlice a1 1500) (pySlice a2 1500) (pySlice a3 1500)
              (pySlice a4 1500)) datum
      ∧ (a1.length ≤ 1500 →
          containsStr (advies_user_prompt c (synthese_data a1 a2 a3 a4) datum) a1)
      ∧ (a2.length ≤ 1500 →
          containsStr (advies_user_prompt c (synthese_data a1 a2 a3 a4) datum) a2)
      ∧ (a3.length ≤ 1500 →
          containsStr (advies_user_prompt c (synthese_data a1 a2 a3 a4) datum) a3)
      ∧ (a4.length ≤ 1500 →
          containsStr (advies_user_prompt c (synthese_data a1 a2 a3 a4) datum) a4)) := by
  refine ⟨⟨?_, pySlice_length_le s1 1000, ?_⟩,
    ⟨?_, pySlice_length_le s1 1500, pySlice_length_le s2 1500, pySlice_length_le s3 1500,
      ?_, ?_, ?_⟩, ⟨?_, ?_, ?_, ?_, ?_⟩⟩
  · simp only [agent2_user_prompt, pySlice_pySlice]
  · intro h
    have hc : containsStr (agent2_user_prompt c s1) (pySlice s1 1000) := by
      simp only [agent2_user_prompt]
      repeat first
        | exact containsStr_snoc _ _
        | apply containsStr_peel
    rwa [pySlice_of_length_le s1 1000 h] at hc
  · simp only [agent4_user_prompt, pySlice_pySlice]
  · intro h
    have hc : containsStr (agent4_user_prompt c s1 s2 s3) (pySlice s1 1500) := by
      simp only [agent4_user_prompt]
      repeat first
        | exact containsStr_snoc _ _
        | apply containsStr_peel
    rwa [pySlice_of_length_le s1 1500 h] at hc
  · intro h
    have hc : containsStr (agent4_user_prompt c s1 s2 s3) (pySlice s2 1500) := by
      simp only [agent4_user_prompt]
      repeat first
        | exact containsStr_snoc _ _
        | apply containsStr_peel
    rwa [pySlice_of_length_le s2 1500 h] at hc
  · intro h
    have hc : containsStr (agent4_user_prompt c s1 s2 s3) (pySlice s3 1500) := by
      simp only [agent4_user_prompt]
      repeat first
        | exact containsStr_snoc _ _
        | apply containsStr_peel
    rwa [pySlice_of_length_le s3 1500 h] at hc
  · simp only [advies_user_prompt, dictGet_sterke_punten, dictGet_risicos,
      dictGet_procedurele_kansen, dictGet_synthese, pySlice_pySlice]
  · intro h
    have hc : containsStr (advies_user_prompt c (synthese_data a1 a2 a3 a4) datum)
        (pySlice a1 1500) := by
      simp only [advies_user_prompt, dictGet_sterke_punten]
      repeat first
        | exact containsStr_snoc _ _
        | apply containsStr_peel
    rwa [pySlice_of_length_le a1 1500 h] at hc
  · intro h
    have hc : containsStr (advies_user_prompt c (synthese_data a1 a2 a3 a4) datum)
        (pySlice a2 1500) := by
      simp only [advies_user_prompt, dictGet_risicos]
      repeat first
        | exact containsStr_snoc _ _
        | apply containsStr_peel
    rwa [pySlice_of_length_le a2 1500 h] at hc
  · intro h
    have hc : containsStr (advies_user_prompt c (synthese_data a1 a2 a3 a4) datum)
        (pySlice a3 1500) := by
      simp only [advies_user_prompt, dictGet_procedurele_kansen]
      repeat first
        | exact containsStr_snoc _ _
        | apply containsStr_peel
    rwa [pySlice_of_length_le a3 1500 h] at hc
  · intro h
    have hc : containsStr (advies_user_prompt c (synthese_data a1 a2 a3 a4) datum)
        (pySlice a4 1500) := by
      simp only [advies_user_prompt, dictGet_synthese]
      repeat first
        | exact containsStr_snoc _ _
        | apply containsStr_peel
    rwa [pySlice_of_length_le a4 1500 h] at hc

/-- C2 witness: a short synthetic Stage-1 output occurs verbatim in the
Stage-2 prompt. -/
theorem prompt_truncation_caps_witness :
    containsStr (agent2_user_prompt exCasus "korte analyse") "korte analyse"
    ∧ (pySlice "korte analyse" 1000).length ≤ 1000 := by
  have h := prompt_truncation_caps exCasus "korte analyse" "" "" "" "" "" "" ""
  exact ⟨h.1.2.2 (by decide), h.1.2.1⟩

/-- C5: the fixed stage wiring. The Stage-2 prompt contains the truncated
Stage-1 output; the Stage-4 prompt contains the truncated outputs of
Stages 1, 2 and 3; Stage 3 is called on a prompt built from the case
record alone. -/
theorem stage_dependency_wiring (rawGen : String → String → Except String GenResponse)
    (c : CasusInput) (ts dt : String) :
    ((run_analysis rawGen c ts dt).agent2
      = call_gemini rawGen agent2_system_prompt
          (agent2_user_prompt c ((run_analysis rawGen c ts dt).agent1)) LITE_MODEL)
    ∧ containsStr (agent2_user_prompt c ((run_analysis rawGen c ts dt).agent1))
        (pySlice ((run_analysis rawGen c ts dt).agent1) 1000)
    ∧ ((run_analysis rawGen c ts dt).agent4
      = call_gemini rawGen agent4_system_prompt
          (agent4_user_prompt c ((run_analysis rawGen c ts dt).agent1)
            ((run_analysis rawGen c ts dt).agent2)
            ((run_analysis rawGen c ts dt).agent3)) ADVANCED_MODEL)
    ∧ containsStr
        (agent4_user_prompt c ((run_analysis rawGen c ts dt).agent1)
          ((run_analysis rawGen c ts dt).agent2) ((run_analysis rawGen c ts dt).agent3))
        (pySlice ((run_analysis rawGen c ts dt).agent1) 1500)
    ∧ containsStr
        (agent4_user_prompt c ((run_analysis rawGen c ts dt).agent1)
          ((run_analysis rawGen c ts dt).agent2) ((run_analysis rawGen c ts dt).agent3))
        (pySlice ((run_analysis rawGen c ts dt).agent2) 1500)
    ∧ containsStr
        (agent4_user_prompt c ((run_analysis rawGen c ts dt).agent1)
          ((run_analysis rawGen c ts dt).agent2) ((run_analysis rawGen c ts dt).agent3))
        (pySlice ((run_analysis rawGen c ts dt).agent3) 1500)
    ∧ ((run_analysis rawGen c ts dt).agent3
      = call_gemini rawGen agent3_system_prompt (agent3_user_prompt c) LITE_MODEL) := by
  refine ⟨rfl, ?_, rfl, ?_, ?_, ?_, rfl⟩
  all_goals
    first
      | (simp only [agent2_user_prompt]
         repeat first
           | exact containsStr_snoc _ _
           | apply containsStr_peel)
      | (simp only [agent4_user_prompt]
         repeat first
           | exact containsStr_snoc _ _
           | apply containsStr_peel)

/-- C8 amended: the composer output is a deterministic function of the
case record, the stage outputs and the current date embedded into the
prompt; in particular it does not depend on the `timestamp` argument, and
two runs with the same date and identical inputs agree byte for byte. -/
theorem composer_deterministic_given_date
    (rawGen : String → String → Except String GenResponse) (c : CasusInput)
    (d : List (String × String)) (t1 t2 datum : String) :
    genereer_uitgebreid_advies rawGen c d t1 datum
      = genereer_uitgebreid_advies rawGen c d t2 datum := rfl

/-- C8 counterexample: with a deterministic echo stub and identical case
record and stage outputs, running the composer on two different calendar
days yields different memo texts, so the memo is not a function of the
case record and stage outputs alone. -/
theorem composer_date_dependence_counterexample :
    genereer_uitgebreid_advies echoStub exCasus exAnalyses "20240101_120000" "01/01/2024"
    ≠ genereer_uitgebreid_advies echoStub exCasus exAnalyses "20240101_120000" "02/01/2024" := by
  intro h
  have h1 : advies_user_prompt exCasus exAnalyses "01/01/2024"
      = advies_user_prompt exCasus exAnalyses "02/01/2024" := by
    have h0 := h
    simp only [genereer_uitgebreid_advies, call_gemini, echoStub, mkFullPrompt] at h0
    exact string_append_left_cancel h0
  simp only [advies_user_prompt] at h1
  have h2 := string_append_left_cancel
    (string_append_right_cancel (string_append_right_cancel (string_append_right_cancel
      (string_append_right_cancel (string_append_right_cancel (string_append_right_cancel
        (string_append_right_cancel h1)))))))
  exact absurd h2 (by decide)

/-- C3: a raised generative call or an empty response is returned by
`call_gemini` as a text beginning with the marker ERROR: and is never
re-raised (the embedding is a total `String` function); a failure in a
stage leaves the run complete, the marker standing as that stage output,
and the marker is forwarded uninspected, truncated, into the next prompt
and into the composer dictionary. -/
theorem gen_failure_error_marker (rawGen : String → String → Except String GenResponse)
    (sys user mdl : String) (c : CasusInput) (ts dt : String) :
    (∀ e, rawGen mdl (mkFullPrompt sys user) = Except.error e →
        call_gemini rawGen sys user mdl = "ERROR: " ++ e
        ∧ strStartsWith (call_gemini rawGen sys user mdl) "ERROR:")
    ∧ (∀ resp, rawGen mdl (mkFullPrompt sys user) = Except.ok resp → resp.parts = [] →
        call_gemini rawGen sys user mdl = "ERROR: Geen response ontvangen")
    ∧ (∀ e, rawGen LITE_MODEL (mkFullPrompt agent1_system_prompt (agent1_user_prompt c))
          = Except.error e →
        (run_analysis rawGen c ts dt).agent1 = "ERROR: " ++ e
        ∧ (run_analysis rawGen c ts dt).agent2
            = call_gemini rawGen agent2_system_prompt
                (agent2_user_prompt c ("ERROR: " ++ e)) LITE_MODEL
        ∧ containsStr (agent2_user_prompt c ("ERROR: " ++ e)) (pySlice ("ERROR: " ++ e) 1000)
        ∧ (run_analysis rawGen c ts dt).final_advice
            = genereer_uitgebreid_advies rawGen c
                (synthese_data ((run_analysis rawGen c ts dt).agent1)
                  ((run_analysis rawGen c ts dt).agent2)
                  ((run_analysis rawGen c ts dt).agent3)
                  ((run_analysis rawGen c ts dt).agent4)) ts dt) := by
  refine ⟨?_, ?_, ?_⟩
  · intro e he
    have hc : call_gemini rawGen sys user mdl = "ERROR: " ++ e := by
      simp [call_gemini, he]
    exact ⟨hc, hc ▸ strStartsWith_error e⟩
  · intro resp hok hparts
    simp [call_gemini, hok, hparts]
  · intro e he
    have h1 : agent1_analyze rawGen c = "ERROR: " ++ e := by
      simp [agent1_analyze, call_gemini, he]
    refine ⟨h1, ?_, ?_, rfl⟩
    · show agent2_analyze rawGen c (agent1_analyze rawGen c) = _
      rw [h1]
      rfl
    · simp only [agent2_user_prompt]
      repeat first
        | exact containsStr_snoc _ _
        | apply containsStr_peel

/-- C3 witness: a concrete always-raising service yields the marker from
`call_gemini` and as the Stage-1 output of a full run. -/
theorem gen_failure_error_marker_witness :
    call_gemini exRawGenErr "sys" "user" "model" = "ERROR: quota bereikt"
    ∧ (run_analysis exRawGenErr exCasus "ts" "01/01/2024").agent1 = "ERROR: quota bereikt" := by
  have h := gen_failure_error_marker exRawGenErr "sys" "user" "model" exCasus "ts" "01/01/2024"
  exact ⟨(h.1 "quota bereikt" rfl).1, (h.2.2 "quota bereikt" rfl).1⟩

theorem get_casus_input_some_eq (inp : FormInput) (c : CasusInput)
    (h : get_casus_input inp = some c) :
    c = { client_naam := inp.client_naam, client_rol := inp.client_rol,
          tegenpartij_naam := inp.tegenpartij_naam,
          tegenpartij_rol := inp.tegenpartij_rol,
          situatie_samenvatting := inp.situatie_samenvatting,
          doel_client := inp.doel_client,
          vorderingen := if parse_lines inp.vorderingen_text = [] then [GEEN_VORDERINGEN]
            else parse_lines inp.vorderingen_text,
          feitenrelaas := if inp.include_ocr ∧ inp.ocr_text ≠ "" then
              inp.feitenrelaas ++ "\n\n=== GEËXTRAHEERDE DOCUMENTEN ===\n" ++ inp.ocr_text
            else inp.feitenrelaas,
          bewijsstukken := if parse_lines inp.bewijsstukken_text = [] then [GEEN_BEWIJSSTUKKEN]
            else parse_lines inp.bewijsstukken_text }
    ∧ ¬(inp.client_naam = "" ∨ inp.tegenpartij_naam = "" ∨ inp.situatie_samenvatting = "") := by
  unfold get_casus_input at h
  by_cases hval : inp.client_naam = "" ∨ inp.tegenpartij_naam = ""
      ∨ inp.situatie_samenvatting = ""
  · rw [if_pos hval] at h
    exact absurd h (by simp)
  · rw [if_neg hval] at h
    exact ⟨(Option.some.inj h).symm, hval⟩

/-- C6: a constructed case record never has empty claims or evidence
lists; when the parsed form input is empty the single sentinel entry is
substituted. -/
theorem casus_lists_nonempty (inp : FormInput) (c : CasusInput)
    (h : get_casus_input inp = some c) :
    c.vorderingen ≠ [] ∧ c.bewijsstukken ≠ []
    ∧ (parse_lines inp.vorderingen_text = [] → c.vorderingen = [GEEN_VORDERINGEN])
    ∧ (parse_lines inp.bewijsstukken_text = [] → c.bewijsstukken = [GEEN_BEWIJSSTUKKEN]) := by
  obtain ⟨rfl, -⟩ := get_casus_input_some_eq inp c h
  refine ⟨?_, ?_, ?_, ?_⟩
  · by_cases hv : parse_lines inp.vorderingen_text = []
    · simp [hv]
    · simp [hv]
  · by_cases hb : parse_lines inp.bewijsstukken_text = []
    · simp [hb]
    · simp [hb]
  · intro hv; simp [hv]
  · intro hb; simp [hb]

/-- C6 witness: a form with empty claims and evidence text produces the
sentinel lists, which are nonempty. -/
theorem casus_lists_nonempty_witness :
    exCasusC6.vorderingen ≠ [] ∧ exCasusC6.bewijsstukken ≠ [] := by
  have h := casus_lists_nonempty exInpC6 exCasusC6 rfl
  exact ⟨h.1, h.2.1⟩

/-- C7: when client name, counterparty name or situation summary is empty
at submission, no case record is constructed and no pipeline run starts;
every record that is constructed has the three fields nonempty. -/
theorem required_fields_guard (rawGen : String → String → Except String GenResponse)
    (inp : FormInput) (c : CasusInput) (ts dt : String) :
    (get_casus_input inp = some c →
      c.client_naam ≠ "" ∧ c.tegenpartij_naam ≠ "" ∧ c.situatie_samenvatting ≠ "")
    ∧ ((inp.client_naam = "" ∨ inp.tegenpartij_naam = "" ∨ inp.situatie_samenvatting = "") →
      get_casus_input inp = none ∧ main_run rawGen inp ts dt = none) := by
  constructor
  · intro h
    obtain ⟨rfl, hval⟩ := get_casus_input_some_eq inp c h
    push_neg at hval
    exact ⟨hval.1, hval.2.1, hval.2.2⟩
  · intro hbad
    have hn : get_casus_input inp = none := by
      unfold get_casus_input
      rw [if_pos hbad]
    exact ⟨hn, by simp [main_run, hn]⟩

/-- C7 witness: a valid form yields a record with nonempty identifying
fields; a form with an empty client name yields no record and no run. -/
theorem required_fields_guard_witness :
    exCasusC6.client_naam ≠ "" ∧ get_casus_input exInpC7bad = none
    ∧ main_run exRawGenErr exInpC7bad "ts" "dt" = none := by
  have h1 := required_fields_guard exRawGenErr exInpC6 exCasusC6 "ts" "dt"
  have h2 := required_fields_guard exRawGenErr exInpC7bad exCasusC6 "ts" "dt"
  exact ⟨(h1.1 rfl).1, (h2.2 (Or.inl rfl)).1, (h2.2 (Or.inl rfl)).2⟩

theorem document_filterMap {Page Image : Type} (env : IngestEnv Page Image) (d : Bool)
    (files : List UploadedFile) :
    files.filterMap (document_entry env d)
      = (files.filter (fun g => extract_content_from_file env g d != "")).map
          (document_wrap env d) := by
  induction files with
  | nil => rfl
  | cons g gs ih =>
    by_cases hg : extract_content_from_file env g d = ""
    · simp [document_entry, hg, ih]
    · simp [document_entry, hg, ih]

/-- C1 (amended): ingestion never aborts on a failing unit, and the blob is
always exactly the wrapped contents of the units with nonempty extraction,
in upload order. What lands in the failing unit slot depends on the
failure path. An exception reaching the catch-all of
`extract_content_from_file` (unreadable file), or a failing per-image
extraction call (caught inside `extract_content_from_image`), yields an
empty extraction and the unit is omitted from the blob entirely, its error
message shown in the UI only. A failure inside the direct whole-document
PDF fallback (no rasterizer, or a zero-page rasterization) instead leaves
the visible inline text `PDF verwerking mislukt: ...` standing as the unit
content, so that unit does appear in the blob, wrapped in its slot in
order, carrying the error text. -/
theorem ingest_error_isolation {Page Image : Type} (env : IngestEnv Page Image)
    (xs ys : List UploadedFile) (f : UploadedFile) (d : Bool) (e : String) :
    (∀ files : List UploadedFile,
      process_multiple_documents env files d
        = String.intercalate "\n"
            ((files.filter (fun g => extract_content_from_file env g d != "")).map
              (document_wrap env d)))
    ∧ (extract_file_body env f d = Except.error e →
        extract_content_from_file env f d = ""
        ∧ process_multiple_documents env (xs ++ f :: ys) d
            = process_multiple_documents env (xs ++ ys) d)
    ∧ (∀ img : Image,
        (["png", "jpg", "jpeg", "webp"].contains (file_extension f.name)) = true →
        env.openImage f = Except.ok img → env.extractImageRaw img d = Except.error e →
        extract_content_from_file env f d = ""
        ∧ process_multiple_documents env (xs ++ f :: ys) d
            = process_multiple_documents env (xs ++ ys) d)
    ∧ (file_extension f.name = "pdf" → env.directPdfRaw f d = Except.error e →
        (env.pdfSupport = false ∨ env.readPdf f = Except.ok ([] : List Page)) →
        extract_content_from_file env f d = "PDF verwerking mislukt: " ++ e
        ∧ document_entry env d f = some (document_wrap env d f)
        ∧ containsStr (document_wrap env d f) ("PDF verwerking mislukt: " ++ e)) := by
  refine ⟨?_, ?_, ?_, ?_⟩
  · intro files
    unfold process_multiple_documents
    rw [document_filterMap]
  · intro h
    have hempty : extract_content_from_file env f d = "" := by
      simp [extract_content_from_file, h]
    have hentry : document_entry env d f = none := by
      simp [document_entry, hempty]
    exact ⟨hempty, by
      simp [process_multiple_documents, List.filterMap_append, List.filterMap_cons, hentry]⟩
  · intro img hcont hopen hraw
    have hnotpdf : file_extension f.name ≠ "pdf" := by
      intro hpdf
      rw [hpdf] at hcont
      exact absurd hcont (by decide)
    have hcont2 : file_extension f.name = "png" ∨ file_extension f.name = "jpg"
        ∨ file_extension f.name = "jpeg" ∨ file_extension f.name = "webp" := by
      simpa using hcont
    have hempty : extract_content_from_file env f d = "" := by
      simp [extract_content_from_file, extract_file_body, hnotpdf, hcont2, hopen,
        extract_content_from_image, hraw, Except.map]
    have hentry : document_entry env d f = none := by
      simp [document_entry, hempty]
    exact ⟨hempty, by
      simp [process_multiple_documents, List.filterMap_append, List.filterMap_cons, hentry]⟩
  · intro hpdf hraw hcase
    have hextract : extract_content_from_file env f d = "PDF verwerking mislukt: " ++ e := by
      rcases hcase with hps | hread
      · simp [extract_content_from_file, extract_file_body, hpdf, hps,
          extract_content_from_pdf_direct, hraw]
      · by_cases hps : env.pdfSupport = true
        · simp [extract_content_from_file, extract_file_body, hpdf, hps, pdf_to_images,
            hread, extract_content_from_pdf_direct, hraw, Except.map]
        · have hps2 : env.pdfSupport = false := by simpa using hps
          simp [extract_content_from_file, extract_file_body, hpdf, hps2,
            extract_content_from_pdf_direct, hraw]
    have hne : ("PDF verwerking mislukt: " ++ e) ≠ "" := by
      intro hq
      have hd := congrArg String.data hq
      rw [String.data_append] at hd
      exact absurd (List.append_eq_nil.mp hd).1 (by decide)
    refine ⟨hextract, ?_, ?_⟩
    · simp [document_entry, hextract, hne]
    · simp only [document_wrap, hextract]
      exact containsStr_peel _ _ _ (containsStr_snoc _ _)

/-- C1 witness: in a three-file image batch whose second file is
unreadable, the blob equals the blob of the two readable files; a PDF
whose direct fallback call raises keeps the inline error text as its
content, which appears in its wrapped blob slot. -/
theorem ingest_error_isolation_witness :
    process_multiple_documents exEnvC1 [exFileA, exFileB, exFileC] true
      = process_multiple_documents exEnvC1 [exFileA, exFileC] true
    ∧ extract_content_from_file exEnvC1b exPdfDirectFile true
        = "PDF verwerking mislukt: netwerkfout"
    ∧ containsStr (document_wrap exEnvC1b true exPdfDirectFile)
        ("PDF verwerking mislukt: " ++ "netwerkfout") := by
  have h1 := ingest_error_isolation exEnvC1 [exFileA] [exFileC] exFileB true "kapot bestand"
  have h2 := ingest_error_isolation exEnvC1b [] [] exPdfDirectFile true "netwerkfout"
  have hA := (h1.2.1 rfl).2
  have hC := h2.2.2.2 rfl rfl (Or.inl rfl)
  exact ⟨by simpa using hA, hC.1.trans (by rfl), hC.2.2⟩

set_option maxRecDepth 8000 in
/-- C1 counterexample: a concrete three-file batch whose second file fails
to extract yields a blob identical to the batch without that file, with no
error text in the failed slot: the blob holds exactly the two wrapped
successful documents (two delimiter pairs, 200 `=` characters), the
failing unit is omitted rather than marked. -/
theorem ingest_inline_marker_counterexample :
    process_multiple_documents exEnvC1 [exFileA, exFileB, exFileC] true
      = process_multiple_documents exEnvC1 [exFileA, exFileC] true
    ∧ process_multiple_documents exEnvC1 [exFileA, exFileB, exFileC] true
      = "\n" ++ separator50 ++ "\nDocument: a.png\n" ++ separator50 ++ "\nTEKST EEN\n\n\n"
        ++ separator50 ++ "\nDocument: c.png\n" ++ separator50 ++ "\nTEKST DRIE\n"
    ∧ (process_multiple_documents exEnvC1 [exFileA, exFileB, exFileC] true).data.count '='
        = 200 := by
  refine ⟨rfl, by decide, by decide⟩

/-- C9: for a PDF upload, when rasterization is available and reading
succeeds, every page is rendered once at the fixed 2x matrix, pages are
numbered 1-based in ascending contiguous order, and each page is extracted
independently with its page-number prefix; when rasterization is
unavailable the whole document goes to the direct multimodal call as a
single unit. -/
theorem pdf_rasterization_dispatch {Page Image : Type} (env : IngestEnv Page Image)
    (f : UploadedFile) (d : Bool) (pages : List Page)
    (hext : file_extension f.name = "pdf") :
    FITZ_MATRIX = (2, 2)
    ∧ (env.pdfSupport = false →
        extract_content_from_file env f d
          = extract_content_from_pdf_direct env.directPdfRaw f d)
    ∧ (env.pdfSupport = true → env.readPdf f = Except.ok pages →
        pdf_to_images env f
          = Except.ok (some (pages.enum.map
              (fun ip => (env.renderPage ip.2 FITZ_MATRIX, ip.1 + 1))))
        ∧ (pages.enum.map (fun ip => ip.1 + 1)) = List.range' 1 pages.length
        ∧ (pages ≠ [] →
            extract_content_from_file env f d
              = String.intercalate "\n"
                  ((pages.enum.map
                      (fun ip => (env.renderPage ip.2 FITZ_MATRIX, ip.1 + 1))).filterMap
                    (page_entry env d)))) := by
  refine ⟨rfl, ?_, ?_⟩
  · intro hps
    simp [extract_content_from_file, extract_file_body, hext, hps]
  · intro hps hread
    refine ⟨?_, ?_, ?_⟩
    · simp [pdf_to_images, hps, hread, Except.map]
    · have h1 : (pages.enum.map (fun ip => ip.1 + 1))
          = (pages.enum.map Prod.fst).map (fun n => n + 1) := by
        rw [List.map_map]; rfl
      rw [h1, List.enum_map_fst, List.range'_eq_map_range]
      simp [Nat.add_comm]
    · intro hne
      have himgs : ((pages.enum.map
          (fun ip => (env.renderPage ip.2 FITZ_MATRIX, ip.1 + 1))).isEmpty) = false := by
        simp [List.isEmpty_iff, hne]
      simp [extract_content_from_file, extract_file_body, hext, hps, pdf_to_images,
        hread, himgs, Except.map]

/-- C9 witness: a two-page PDF in a rasterizing environment yields two
independent page extractions in ascending order; the same PDF without
rasterization yields the single direct extraction. -/
theorem pdf_rasterization_dispatch_witness :
    extract_content_from_file exEnvC9 exPdfFile true
      = "\n--- Pagina 1 ---\ninhoud 10\n\n--- Pagina 2 ---\ninhoud 20"
    ∧ extract_content_from_file exEnvC9b exPdfFile true = "directe inhoud" := by
  have h := pdf_rasterization_dispatch exEnvC9 exPdfFile true [10, 20] rfl
  have hb := pdf_rasterization_dispatch exEnvC9b exPdfFile true ([] : List Nat) rfl
  constructor
  · rw [(h.2.2 rfl rfl).2.2 (by decide)]
    rfl
  · rw [hb.2.1 rfl]
    rfl

theorem parse_lines_filter (t : String) :
    parse_lines t = ((pySplit t '\n').filter (fun l => pyStrip l != "")).map pyStrip := by
  unfold parse_lines
  rw [List.filter_map]
  rfl

/-- C10 (amended): when the multi-line input has at least one non-blank
line, the constructed claims and evidence lists are exactly the non-blank
lines, stripped, in original order; in all cases no element of either list
is empty or whitespace-padded. When every line is blank the single
sentinel entry is substituted, so the list is then not the (empty) list of
non-blank lines. -/
theorem claims_evidence_exact_lines (inp : FormInput) (c : CasusInput)
    (h : get_casus_input inp = some c) :
    (parse_lines inp.vorderingen_text ≠ [] →
      c.vorderingen = parse_lines inp.vorderingen_text)
    ∧ (parse_lines inp.bewijsstukken_text ≠ [] →
      c.bewijsstukken = parse_lines inp.bewijsstukken_text)
    ∧ (∀ t, parse_lines t = ((pySplit t '\n').filter (fun l => pyStrip l != "")).map pyStrip)
    ∧ (∀ x ∈ c.vorderingen, x ≠ "" ∧ pyStrip x = x)
    ∧ (∀ x ∈ c.bewijsstukken, x ≠ "" ∧ pyStrip x = x) := by
  obtain ⟨rfl, -⟩ := get_casus_input_some_eq inp c h
  refine ⟨?_, ?_, parse_lines_filter, ?_, ?_⟩
  · intro hv; simp [hv]
  · intro hb; simp [hb]
  · intro x hx
    by_cases hv : parse_lines inp.vorderingen_text = []
    · simp [hv] at hx
      subst hx
      exact ⟨by decide, by decide⟩
    · simp [hv] at hx
      exact pyStrip_mem_parse hx
  · intro x hx
    by_cases hb : parse_lines inp.bewijsstukken_text = []
    · simp [hb] at hx
      subst hx
      exact ⟨by decide, by decide⟩
    · simp [hb] at hx
      exact pyStrip_mem_parse hx

/-- C10 witness: two padded claim lines come out stripped, in order, with
no empty or padded element. -/
theorem claims_evidence_exact_lines_witness :
    exCasusC10w.vorderingen = ["eis een", "eis twee"]
    ∧ "eis een" ≠ "" ∧ pyStrip "eis een" = "eis een" := by
  have h := claims_evidence_exact_lines exInpC10w exCasusC10w rfl
  have h2 := h.2.2.2.1 "eis een" (by decide)
  exact ⟨(h.1 (by decide)).trans (by rfl), h2.1, h2.2⟩

/-- C10 counterexample: a submitted form whose claims text holds only
whitespace has no non-blank lines, yet the constructed record holds the
sentinel entry, so the claims list is not exactly the (empty) list of
stripped non-blank lines. -/
theorem claims_lines_sentinel_counterexample :
    get_casus_input exInpC10 = some exCasusC10
    ∧ parse_lines exInpC10.vorderingen_text = []
    ∧ exCasusC10.vorderingen = [GEEN_VORDERINGEN]
    ∧ exCasusC10.vorderingen ≠ parse_lines exInpC10.vorderingen_text := by
  refine ⟨rfl, rfl, rfl, by decide⟩

theorem braceSpan_no_open (s : String) (h : '\x7b' ∉ s.data) : braceSpan s = none := by
  have hnil : s.data.dropWhile (fun c => c != '\x7b') = [] :=
    List.dropWhile_eq_nil_iff.mpr (fun x hx => by
      simp only [bne_iff_ne, ne_eq]
      intro heq
      exact h (heq ▸ hx))
  simp [braceSpan, hnil]

theorem braceSpan_decomp (s t : String) (h : braceSpan s = some t) :
    ∃ a b : List Char, s.data = a ++ t.data ++ b
      ∧ (∀ ch ∈ a, ch ≠ '\x7b') ∧ (∀ ch ∈ b, ch ≠ '\x7d')
      ∧ t.data.head? = some '\x7b' ∧ t.data.getLast? = some '\x7d' := by
  simp only [braceSpan] at h
  by_cases h1 : (s.data.dropWhile (fun c => c != '\x7b')).isEmpty = true
  · rw [if_pos h1] at h
    exact absurd h (by simp)
  · rw [if_neg h1] at h
    by_cases h2 : ((s.data.dropWhile (fun c => c != '\x7b')).reverse.dropWhile
        (fun c => c != '\x7d')).reverse.isEmpty = true
    · rw [if_pos h2] at h
      exact absurd h (by simp)
    · rw [if_neg h2] at h
      have hdata : t.data
          = ((s.data.dropWhile (fun c => c != '\x7b')).reverse.dropWhile
              (fun c => c != '\x7d')).reverse := by
        rw [← Option.some.inj h]
      refine ⟨s.data.takeWhile (fun c => c != '\x7b'),
        ((s.data.dropWhile (fun c => c != '\x7b')).reverse.takeWhile
          (fun c => c != '\x7d')).reverse, ?_, ?_, ?_, ?_, ?_⟩
      · rw [hdata]
        have hsplit : s.data.dropWhile (fun c => c != '\x7b')
            = ((s.data.dropWhile (fun c => c != '\x7b')).reverse.dropWhile
                (fun c => c != '\x7d')).reverse
              ++ ((s.data.dropWhile (fun c => c != '\x7b')).reverse.takeWhile
                (fun c => c != '\x7d')).reverse := by
          calc s.data.dropWhile (fun c => c != '\x7b')
              = (s.data.dropWhile (fun c => c != '\x7b')).reverse.reverse := by
                rw [List.reverse_reverse]
            _ = ((s.data.dropWhile (fun c => c != '\x7b')).reverse.takeWhile
                    (fun c => c != '\x7d')
                  ++ (s.data.dropWhile (fun c => c != '\x7b')).reverse.dropWhile
                    (fun c => c != '\x7d')).reverse := by
                rw [List.takeWhile_append_dropWhile]
            _ = _ := by rw [List.reverse_append]
        rw [List.append_assoc, ← hsplit, List.takeWhile_append_dropWhile]
      · intro ch hch
        have hp := List.mem_takeWhile_imp hch
        simpa using hp
      · intro ch hch
        rw [List.mem_reverse] at hch
        have hp := List.mem_takeWhile_imp hch
        simpa using hp
      · rw [hdata]
        cases hr : ((s.data.dropWhile (fun c => c != '\x7b')).reverse.dropWhile
            (fun c => c != '\x7d')).reverse with
        | nil => exact absurd (by rw [hr]; rfl) h2
        | cons y ys =>
          obtain ⟨zs, hzs⟩ := rstrip_head_eq (fun c => c != '\x7d')
            (s.data.dropWhile (fun c => c != '\x7b')) y ys hr
          have hy := dropWhile_head_false (fun c => c != '\x7b') s.data y zs hzs
          have hyb : y = '\x7b' := by simpa using hy
          rw [hyb]
          rfl
      · rw [hdata, ← List.head?_reverse, List.reverse_reverse]
        cases hd : (s.data.dropWhile (fun c => c != '\x7b')).reverse.dropWhile
            (fun c => c != '\x7d') with
        | nil => exact absurd (by rw [hd]; rfl) h2
        | cons z zs =>
          have hz := dropWhile_head_false (fun c => c != '\x7d')
            (s.data.dropWhile (fun c => c != '\x7b')).reverse z zs hd
          have hzb : z = '\x7d' := by simpa using hz
          rw [hzb]
          rfl

/-- C4: the extractor takes the greedy brace span, from the first opening
brace to the last closing brace (no opening brace before the span, no
closing brace after it); a parsed object becomes the field mapping, and a
missing span or a parse failure yields the empty mapping, never an
exception; a well-formed object embedded in surrounding prose is parsed. -/
theorem structured_extractor_policy (s : String) :
    ('\x7b' ∉ s.data → braceSpan s = none)
    ∧ (braceSpan s = none → ai_extract s = [])
    ∧ (∀ t, braceSpan s = some t →
        (∃ a b : List Char, s.data = a ++ t.data ++ b
          ∧ (∀ ch ∈ a, ch ≠ '\x7b') ∧ (∀ ch ∈ b, ch ≠ '\x7d')
          ∧ t.data.head? = some '\x7b' ∧ t.data.getLast? = some '\x7d')
        ∧ (∀ kvs, json_loads t = some (JsonVal.obj kvs) → ai_extract s = kvs)
        ∧ (json_loads t = none → ai_extract s = []))
    ∧ ai_extract "Resultaat: \x7b\"client_naam\": \"NV TechStart\"\x7d klaar."
        = [("client_naam", JsonVal.str "NV TechStart")] := by
  refine ⟨braceSpan_no_open s, ?_, ?_, rfl⟩
  · intro h
    simp [ai_extract, h]
  · intro t ht
    refine ⟨braceSpan_decomp s t ht, ?_, ?_⟩
    · intro kvs hk
      simp [ai_extract, ht, hk]
    · intro hn
      simp [ai_extract, ht, hn]

/-- C4 witness: a response with no brace yields no span and the empty
mapping rather than an exception. -/
theorem structured_extractor_policy_witness :
    braceSpan "geen json hier" = none ∧ ai_extract "geen json hier" = [] := by
  have h := structured_extractor_policy "geen json hier"
  have hb : braceSpan "geen json hier" = none := h.1 (by decide)
  exact ⟨hb, h.2.1 hb⟩
